import Mathlib

/-!
# Verification of the PROGRAP/iterator wrapper library

Shallow embedding of `src/lib/main.js`: a chainable wrapper that provides
array-like methods (`map`, `filter`, `flat`, `find`, `findIndex`, `includes`,
`dedupe`, `reduce`, sinks `intoMap` / `intoObject`) over any iterable value.

JavaScript values are modelled by the inductive type `Val`.  Machine-level
aspects that the library observes are made explicit:

* objects carry an identity number `oid` so that strict equality (`===`) on
  objects is reference identity, not structural equality;
* `NaN` is its own constructor, so `NaN === NaN` is `false` while the
  SameValueZero comparison used by `Map` keys treats `NaN` as equal to itself;
* runtime `TypeError`s are distinguished by their source site via `JsError`;
  in particular `Symbol.iterator in v` (the body of `isIterator`) throws when
  `v` is a primitive, because the `in` operator requires an object operand.

Sequences already produced by an iterable are `List Val`; the terminal and
chain operations of the library are transcribed over such lists, with the
index bookkeeping of the source kept explicit.
-/

set_option autoImplicit false

/-- A JavaScript value, as observed by the library.
`iterObj oid elems` is an object whose `Symbol.iterator` property is a proper
generator method producing `elems` (arrays, sets, generators ...);
`badIter oid` is an object whose `Symbol.iterator` property is present but
holds a non-function value; `plainObj oid fields` is an object with only
string-keyed own properties and no `Symbol.iterator` property.
The `oid` is the heap identity of the object. -/
inductive Val : Type where
  | num : Int → Val
  | nan : Val
  | str : String → Val
  | boolean : Bool → Val
  | null : Val
  | undefined : Val
  | iterObj : Nat → List Val → Val
  | badIter : Nat → Val
  | plainObj : Nat → List (String × Val) → Val
deriving Repr

/-- Runtime errors, distinguished by the site that raises them (the messages
of the corresponding `TypeError`s are pairwise distinct in the host). -/
inductive JsError : Type where
  /-- `TypeError: Cannot use 'in' operator to search for ... in <primitive>` -/
  | primitiveIn : JsError
  /-- the explicit `TypeError('value is does not implement iterator!')`
  thrown by `Iterator.new` (the spec's `InvalidArgument`) -/
  | invalidArgument : JsError
  /-- `TypeError: <value> is not a function` (e.g. calling/binding a
  non-callable `Symbol.iterator` property) -/
  | notAFunction : JsError
  /-- `TypeError: <value> is not iterable` -/
  | notIterable : JsError
  /-- `TypeError: Iterator value <v> is not an entry object`
  (`new Map` / `Object.fromEntries` on a non-object entry) -/
  | notAnEntry : JsError
deriving Repr, DecidableEq

/-- JavaScript truthiness of a value. -/
def truthy : Val → Bool
  | .num n => n != 0
  | .nan => false
  | .str s => s != ""
  | .boolean b => b
  | .null => false
  | .undefined => false
  | .iterObj _ _ => true
  | .badIter _ => true
  | .plainObj _ _ => true

/-- Whether a value is nullish (`null` or `undefined`). -/
def nullish : Val → Bool
  | .null => true
  | .undefined => true
  | _ => false

/-- The nullish-coalescing operator `a ?? b`. -/
def coalesce (a b : Val) : Val := if nullish a then b else a

/-- JavaScript strict equality `===`.  `NaN` is equal to nothing (itself
included); objects compare by identity (`oid`). -/
def strictEq : Val → Val → Bool
  | .num a, .num b => a == b
  | .str a, .str b => a == b
  | .boolean a, .boolean b => a == b
  | .null, .null => true
  | .undefined, .undefined => true
  | .iterObj a _, .iterObj b _ => a == b
  | .badIter a, .badIter b => a == b
  | .plainObj a _, .plainObj b _ => a == b
  | _, _ => false

/-- SameValueZero, the key comparison used by `Map` and `Set`: like `===`
but `NaN` equals `NaN`. -/
def sameValueZero : Val → Val → Bool
  | .nan, .nan => true
  | a, b => strictEq a b

/-- Property read `v[k]` for a string key on a plain object
(`undefined` when absent or when `v` has no such own property). -/
def getField (k : String) : Val → Val
  | .plainObj _ fs => ((fs.find? (fun p => p.1 == k)).map Prod.snd).getD .undefined
  | _ => .undefined

/-! ## The source's capability check and the wrapper factory

```js
const isIterator = function(value) {
    return (Symbol.iterator in value);
};
```

The `in` operator throws a `TypeError` when its right operand is not an
object — including for primitive strings, which *are* iterable via `for..of`
(property access would box them, but `in` does not). -/

/-- `isIterator` (src/lib/main.js:6-8): `Symbol.iterator in value`.
Returns whether the property is present on an object operand, throws
`TypeError` on a primitive operand. -/
def isIterator : Val → Except JsError Bool
  | .iterObj _ _ => .ok true
  | .badIter _ => .ok true
  | .plainObj _ _ => .ok false
  | .num _ => .error .primitiveIn
  | .nan => .error .primitiveIn
  | .str _ => .error .primitiveIn
  | .boolean _ => .error .primitiveIn
  | .null => .error .primitiveIn
  | .undefined => .error .primitiveIn

/-- The wrapper: `{ ref: value, __proto__: Iterator }`. -/
structure Wrapper : Type where
  ref : Val
deriving Repr

namespace Iterator

/-- `Iterator.new` (src/lib/main.js:306-312):
```js
new(value) {
    if (!isIterator(value)) {
        throw new TypeError('value is does not implement iterator!');
    }
    return { ref: value, __proto__: this };
}
```
The error from `isIterator` itself (primitive operands) propagates. -/
def «new» (value : Val) : Except JsError Wrapper :=
  match isIterator value with
  | .error e => .error e
  | .ok b => if !b then .error .invalidArgument else .ok ⟨value⟩

end Iterator

/-- What `for (const x of v)` produces: the element sequence of `v`, or the
`TypeError` iterating `v` raises.  An `iterObj` yields its elements; a
`badIter` throws because its `Symbol.iterator` property is not callable
(the wrapper's own `[Symbol.iterator]` getter, src/lib/main.js:60-62, hits
the same error via `this.ref[Symbol.iterator].bind(this.ref)`); a primitive
string yields its characters; everything else is not iterable. -/
def iterate : Val → Except JsError (List Val)
  | .iterObj _ l => .ok l
  | .badIter _ => .error .notAFunction
  | .str s => .ok (s.toList.map (fun c => .str (String.mk [c])))
  | .num _ => .error .notIterable
  | .nan => .error .notIterable
  | .boolean _ => .error .notIterable
  | .null => .error .notIterable
  | .undefined => .error .notIterable
  | .plainObj _ _ => .error .notIterable

/-! ## Terminal scans: `find`, `findIndex`, `includes`

The source:
```js
find(lambda) {
    let index = -1;
    for (const item of this.ref) {
        index += 1;
        if (!lambda(item, index)) { continue; }
        return item;
    }
}
```
`index` is incremented before the test, so the lambda sees indices
`0, 1, 2, ...`.  When the loop finishes without a match the function falls
off its end and returns `undefined` — there is no `return -1` in
`findIndex` either.  Lambdas are modelled as `Val → Nat → Bool`, the `Bool`
being the truthiness of the callback's result (the source only ever uses
the result through `!lambda(...)`). -/

/-- The scan of `find` starting at index `i`. -/
def findFrom (lambda : Val → Nat → Bool) : Nat → List Val → Val
  | _, [] => .undefined
  | i, x :: xs => if lambda x i then x else findFrom lambda (i + 1) xs

/-- `find` (src/lib/main.js:164-176): first item whose callback result is
truthy, `undefined` when the sequence is exhausted. -/
def find (lambda : Val → Nat → Bool) (ref : List Val) : Val :=
  findFrom lambda 0 ref

/-- The scan of `findIndex` starting at index `i`. -/
def findIndexFrom (lambda : Val → Nat → Bool) : Nat → List Val → Val
  | _, [] => .undefined
  | i, x :: xs => if lambda x i then .num i else findIndexFrom lambda (i + 1) xs

/-- `findIndex` (src/lib/main.js:185-197): like `find` but returns the index
on a match.  When the loop completes without a match the function body ends
without a `return`, so the result is `undefined`, not `-1`. -/
def findIndex (lambda : Val → Nat → Bool) (ref : List Val) : Val :=
  findIndexFrom lambda 0 ref

/-- `includes` (src/lib/main.js:208-212):
```js
includes(value, fromIndex = 0) {
    return !!this.find((item, index) => {
        return item === value && index >= fromIndex;
    });
}
```
Note the double negation is applied to the *item* `find` returns, so the
result is the truthiness of the found element (or of `undefined`). -/
def includes (value : Val) (fromIndex : Nat) (ref : List Val) : Bool :=
  truthy (find (fun item index => strictEq item value && decide (fromIndex ≤ index)) ref)

/-! ## `reduce` and `rawFilter` -/

/-- The loop of `reduce` starting at index `i`. -/
def reduceFrom {α : Type} (lambda : α → Val → Nat → α) : Nat → α → List Val → α
  | _, acc, [] => acc
  | i, acc, x :: xs => reduceFrom lambda (i + 1) (lambda acc x i) xs

/-- `reduce` (src/lib/main.js:144-154): left fold with `(initial, item,
index)`, index starting at 0, returning the final accumulator. -/
def reduce {α : Type} (lambda : α → Val → Nat → α) (initial : α) (ref : List Val) : α :=
  reduceFrom lambda 0 initial ref

/-- Instrumented transcription of `rawFilter` (src/lib/main.js:119-133)
starting at index `i`:
```js
*rawFilter(lambda) {
    let index = 0;
    for (const item of this.ref) {
        const keep = lambda(item, index);
        index += 1;
        if (!keep) { continue; }
        yield item;
    }
}
```
The first component records every `(item, index)` argument pair the lambda
is invoked with (one invocation per source element, the index advancing
whether or not the item is kept); the second component is the yielded
sequence. -/
def rawFilterT (lambda : Val → Nat → Bool) : Nat → List Val → List (Val × Nat) × List Val
  | _, [] => ([], [])
  | i, x :: xs =>
    let keep := lambda x i
    let rest := rawFilterT lambda (i + 1) xs
    ((x, i) :: rest.1, if keep then x :: rest.2 else rest.2)

/-- The sequence `filter(lambda)` yields. -/
def rawFilter (lambda : Val → Nat → Bool) (ref : List Val) : List Val :=
  (rawFilterT lambda 0 ref).2

/-! ## `rawFlat`

```js
*rawFlat(depth = 1) {
    for (const item of this.ref) {
        if (depth === 0) { yield item; continue; }
        if (!isIterator(item)) { yield item; continue; }
        const innerIter = Iterator.new(item);
        for (const inner of innerIter.rawFlat(depth - 1)) { yield inner; }
    }
}
```
The `depth === 0` test comes first, so at depth 0 every item passes through
untouched.  At positive depth every item is fed to `isIterator`, which
*throws* on primitives; an item whose `Symbol.iterator` property is present
but not callable survives `isIterator` and `Iterator.new` but throws once
the inner `for..of` starts.  `flatItem depth x` is the contribution of one
loop iteration (the sub-sequence `x` expands to, or the `TypeError` that
iteration raises), transcribing the body per `Val` constructor; the
recursive inner loop `for (const inner of innerIter.rawFlat(depth - 1))`
is the fold over the element sequence of the item.  `rawFlat` concatenates
the contributions; an error aborts and discards the partially produced
sequence (the result is the fully forced output of the generator). -/

/-- The contribution of one item of the `rawFlat` loop at the given depth. -/
def flatItem : Nat → Val → Except JsError (List Val)
  | 0, x => .ok [x]                      -- depth === 0: yield item
  | d + 1, x =>
    match x with
    | .iterObj _ inner =>
      -- isIterator ⇒ true; Iterator.new succeeds; inner loop at depth - 1
      inner.foldlM (fun acc y => (flatItem d y).map (fun r => acc ++ r)) []
    | .badIter _ =>
      -- isIterator ⇒ true, Iterator.new succeeds, but the inner for..of
      -- cannot call the non-function Symbol.iterator property
      .error .notAFunction
    | .plainObj oid fs =>
      -- isIterator ⇒ false: yielded unchanged
      .ok [.plainObj oid fs]
    | _ =>
      -- primitives: isIterator itself throws (`in` on a non-object)
      .error .primitiveIn

/-- `rawFlat` (src/lib/main.js:240-261), fully forced: the outer
`for (const item of this.ref)` loop over the contributions. -/
def rawFlat (depth : Nat) (ref : List Val) : Except JsError (List Val) :=
  ref.foldlM (fun acc x => (flatItem depth x).map (fun r => acc ++ r)) []

/-! ## Laziness: `find` pulling from `rawMap`

```js
*rawMap(lambda) {
    let index = 0;
    for (const item of this.ref) {
        yield lambda(item, index);
        index += 1;
    }
}
```
`this.map(f).find(p)` drives the `rawMap` generator one element at a time:
the generator body computes `f(item, index)` exactly when `find` pulls the
next element, and `find` returns — leaving the generator suspended forever —
as soon as the predicate is truthy.  `findMapTrace` transcribes this pull
loop; the second component logs each `(item, index)` pair the map callback
is invoked with, in invocation order.  `find`'s own index counts mapped
elements, which coincides with `rawMap`'s source index. -/

/-- The pull loop of `find` over `map(f)`, from index `i`: result of the
`find` and the invocation log of the map callback `f`. -/
def findMapTrace (f : Val → Nat → Val) (p : Val → Nat → Bool) :
    Nat → List Val → Val × List (Val × Nat)
  | _, [] => (.undefined, [])
  | i, x :: xs =>
    let y := f x i
    if p y i then (y, [(x, i)])
    else
      let r := findMapTrace f p (i + 1) xs
      (r.1, (x, i) :: r.2)

/-! ## `Map` objects and `dedupe`

A `Map` is modelled by its entry list in insertion order.  `map.set` on an
existing key (SameValueZero comparison) overwrites the value in place,
keeping the key's original position; on a fresh key it appends.  `map.get`
returns `undefined` for an absent key.  `map.values()` is the value column
in entry order. -/

/-- The entry list of a JavaScript `Map`, in insertion order. -/
abbrev JsMap : Type := List (Val × Val)

/-- `map.get(k)`. -/
def mapGet (m : JsMap) (k : Val) : Val :=
  match List.find? (fun p => sameValueZero p.1 k) m with
  | some p => p.2
  | none => .undefined

/-- `map.set(k, v)`. -/
def mapSet (m : JsMap) (k v : Val) : JsMap :=
  if (List.find? (fun p => sameValueZero p.1 k) m).isSome then
    List.map (fun p => if sameValueZero p.1 k then (p.1, v) else p) m
  else
    m ++ [(k, v)]

/-- `map.values()`, in entry order. -/
def mapValues (m : JsMap) : List Val :=
  List.map Prod.snd m

/-- The reducer body of `dedupe` (src/lib/main.js:283-300):
```js
const id = identify(next);
const existing = map.get(id);
if (existing ?? true) {
    map.set(id, next);
    return map;
}
map.set(id, merge(existing, next) ?? existing);
return map;
```
Note the condition `existing ?? true`: when `existing` is non-nullish the
condition is the truthiness of `existing` itself, so a *truthy* stored value
sends a repeated key through the first branch, overwriting it with `next`.
The merge branch is reached only when the stored value is falsy but not
nullish. -/
def dedupeStep (identify : Val → Val) (merge : Val → Val → Val)
    (m : JsMap) (next : Val) : JsMap :=
  let id := identify next
  let existing := mapGet m id
  if truthy (coalesce existing (.boolean true)) then
    mapSet m id next
  else
    mapSet m id (coalesce (merge existing next) existing)

/-- `dedupe(identify, merge)`: the element sequence of the wrapper it
returns, i.e. `map.values()` of the reduced `Map`. -/
def dedupe (identify : Val → Val) (merge : Val → Val → Val) (ref : List Val) : List Val :=
  mapValues (reduce (fun m next _ => dedupeStep identify merge m next) ([] : JsMap) ref)

/-- Default `identify = item => item`. -/
def identifyDefault : Val → Val := fun item => item

/-- Default `merge = existing => existing` (the second argument JavaScript
passes is ignored by the one-parameter default). -/
def mergeDefault : Val → Val → Val := fun existing _ => existing

/-! ## Sinks: `intoMap` and `intoObject`

```js
intoMap() { return new Map(this.ref); }
intoObject() { return Object.fromEntries(this.ref); }
```
Both consume `this.ref` as an iterable of entries; a non-object entry raises
a `TypeError`, and an object entry contributes `entry[0]` as key and
`entry[1]` as value (`undefined` when the property is absent). -/

/-- Read an entry object: `(entry[0], entry[1])`, `TypeError` when the entry
is not an object. -/
def entryPair : Val → Except JsError (Val × Val)
  | .iterObj _ l => .ok (l.getD 0 .undefined, l.getD 1 .undefined)
  | .plainObj _ fs =>
    .ok (getField "0" (.plainObj 0 fs), getField "1" (.plainObj 0 fs))
  | .badIter _ => .ok (.undefined, .undefined)
  | _ => .error .notAnEntry

/-- `intoMap` (src/lib/main.js:337-339): `new Map(this.ref)` — insert the
entries left to right with `Map` key semantics. -/
def intoMap (ref : List Val) : Except JsError JsMap :=
  List.foldlM (fun m e => (entryPair e).map (fun kv => mapSet m kv.1 kv.2)) ([] : JsMap) ref

/-- String coercion of a property key (`ToPropertyKey`).  Exact for
primitives; object keys are modelled as `"[object Object]"` without the
array-join stringification of exotic array keys (no claim exercises
object-valued record keys). -/
def toPropertyKey : Val → String
  | .str s => s
  | .num n => toString n
  | .nan => "NaN"
  | .boolean b => if b then "true" else "false"
  | .null => "null"
  | .undefined => "undefined"
  | .iterObj _ _ => "[object Object]"
  | .badIter _ => "[object Object]"
  | .plainObj _ _ => "[object Object]"

/-- `CreateDataProperty` on a record under construction: overwrite in place
when the string key is already present, append otherwise.  (The
integer-index reordering of JavaScript own-property order is not modelled;
no claim uses integer-like record keys.) -/
def objSet (o : List (String × Val)) (k : String) (v : Val) : List (String × Val) :=
  if (List.find? (fun p => p.1 == k) o).isSome then
    List.map (fun p => if p.1 == k then (p.1, v) else p) o
  else
    o ++ [(k, v)]

/-- `intoObject` (src/lib/main.js:346-348): `Object.fromEntries(this.ref)`,
as the record's string-keyed field list. -/
def intoObject (ref : List Val) : Except JsError (List (String × Val)) :=
  List.foldlM (fun o e => (entryPair e).map (fun kv => objSet o (toPropertyKey kv.1) kv.2))
    ([] : List (String × Val)) ref

/-! ## The spec's notion of iterability

Used only to compare the spec's wording with the code's check. -/

/-- Modelled from the spec (glossary: "Iteration capability: the contract
that a value can produce a sequence of elements on demand, one at a time,
exposed through a well-known retrieval mechanism"): values on which
`for..of` produces elements.  Primitive strings qualify (property access
boxes them, so their retrieval mechanism works); an object whose
`Symbol.iterator` property is not callable cannot produce elements and does
not. -/
def exposesIterationCapability : Val → Bool
  | .iterObj _ _ => true
  | .str _ => true
  | _ => false

/-! ## Concrete inputs used by the claims -/

/-- The spec's flatten example `[1, [2, [3, [4]]]]` (distinct oids for the
three nested arrays). -/
def nestedSource : List Val :=
  [.num 1, .iterObj 1 [.num 2, .iterObj 2 [.num 3, .iterObj 3 [.num 4]]]]

/-- The object `{id: 1, v: 'a'}` of the dedupe example. -/
def itemA : Val := .plainObj 1 [("id", .num 1), ("v", .str "a")]

/-- The object `{id: 2, v: 'b'}` of the dedupe example. -/
def itemB : Val := .plainObj 2 [("id", .num 2), ("v", .str "b")]

/-- The object `{id: 1, v: 'c'}` of the dedupe example. -/
def itemC : Val := .plainObj 3 [("id", .num 1), ("v", .str "c")]

/-- The filter example source `[10, 20, 30, 40]`. -/
def filterSource : List Val := [.num 10, .num 20, .num 30, .num 40]

/-- A predicate keeping even numbers. -/
def keepEvens : Val → Nat → Bool := fun v _ =>
  match v with
  | .num n => n % 2 == 0
  | _ => false

/-- A predicate keeping multiples of 20 (over `filterSource` it keeps
exactly the elements `20` and `40`). -/
def keepMul20 : Val → Nat → Bool := fun v _ =>
  match v with
  | .num n => n % 20 == 0
  | _ => false

/-- The entry array `['a', 1]`. -/
def entryA1 : Val := .iterObj 10 [.str "a", .num 1]

/-- The entry array `['b', 2]`. -/
def entryB2 : Val := .iterObj 11 [.str "b", .num 2]

/-- The entry array `['a', 3]` (duplicate key `'a'`). -/
def entryA3 : Val := .iterObj 12 [.str "a", .num 3]

/-- Build the entry array `[k, v]` from a pair (the oid of a fresh array
literal is irrelevant to every operation on entries). -/
def mkEntry (kv : Val × Val) : Val := .iterObj 0 [kv.1, kv.2]

/-- Boolean test that the keys of an entry-pair list are pairwise distinct
under the `Map` key comparison (SameValueZero). -/
def distinctKeys : List (Val × Val) → Bool
  | [] => true
  | kv :: rest =>
    rest.all (fun kv2 => !(sameValueZero kv.1 kv2.1)) && distinctKeys rest

/-- Consuming a wrapper with `for..of` (or a sink): the wrapper's own
`[Symbol.iterator]` getter (src/lib/main.js:60-62) delegates with
`this.ref[Symbol.iterator].bind(this.ref)`, so consumption produces the
element sequence of `ref` or the `TypeError` its iteration raises. -/
def Wrapper.consume (w : Wrapper) : Except JsError (List Val) := iterate w.ref

/-! ## Helper lemmas -/

/-- Nothing is strictly equal to `NaN`. -/
theorem strictEq_nan_right (v : Val) : strictEq v .nan = false := by
  cases v <;> rfl

/-- A scan whose callback is constantly false reaches the end of the loop
and returns `undefined`, from any start index. -/
theorem findFrom_of_callback_false (lambda : Val → Nat → Bool)
    (h : ∀ x i, lambda x i = false) :
    ∀ (l : List Val) (i : Nat), findFrom lambda i l = .undefined := by
  intro l
  induction l with
  | nil => intro i; rfl
  | cons x xs ih => intro i; simp [findFrom, h, ih]

/-- The argument log of `rawFilter`: the lambda is invoked once per source
element, with the running index, whether or not the element is kept. -/
theorem rawFilterT_calls (lambda : Val → Nat → Bool) :
    ∀ (l : List Val) (i : Nat),
      (rawFilterT lambda i l).1 = l.zip (List.range' i l.length) := by
  intro l
  induction l with
  | nil => intro i; rfl
  | cons x xs ih => intro i; simp [rawFilterT, List.range', ih]

/-- Setting a key absent from a `Map` appends the entry. -/
theorem mapSet_append_of_fresh (m : JsMap) (k v : Val)
    (h : m.all (fun p => !(sameValueZero p.1 k)) = true) :
    mapSet m k v = m ++ [(k, v)] := by
  unfold mapSet
  rw [if_neg]
  intro hs
  rw [List.find?_isSome] at hs
  obtain ⟨p, hp, hpk⟩ := hs
  have := (List.all_eq_true.mp h) p hp
  simp [hpk] at this

/-- Folding `map.set` over entry pairs with pairwise-distinct keys, all
fresh for the accumulator, appends them in order. -/
theorem foldl_mapSet_of_distinct :
    ∀ (pairs : List (Val × Val)) (m : JsMap),
      distinctKeys pairs = true →
      (∀ kv ∈ pairs, m.all (fun p => !(sameValueZero p.1 kv.1)) = true) →
      pairs.foldl (fun acc kv => mapSet acc kv.1 kv.2) m = m ++ pairs := by
  intro pairs
  induction pairs with
  | nil => intro m _ _; simp
  | cons kv rest ih =>
    intro m hdist hfresh
    simp only [distinctKeys, Bool.and_eq_true] at hdist
    simp only [List.foldl_cons]
    rw [mapSet_append_of_fresh m kv.1 kv.2 (hfresh kv (List.mem_cons_self kv rest))]
    rw [ih (m ++ [(kv.1, kv.2)]) hdist.2 ?_]
    · simp
    · intro kv2 h2
      rw [List.all_append, Bool.and_eq_true]
      refine ⟨hfresh kv2 (List.mem_cons_of_mem kv h2), ?_⟩
      simpa using (List.all_eq_true.mp hdist.1) kv2 h2

/-- Feeding entry arrays built from pairs into `new Map` is the plain fold
of `map.set` over the pairs. -/
theorem intoMap_mkEntry_foldl :
    ∀ (pairs : List (Val × Val)) (m : JsMap),
      List.foldlM (fun m e => (entryPair e).map (fun kv => mapSet m kv.1 kv.2)) m
          (List.map mkEntry pairs)
        = .ok (pairs.foldl (fun acc kv => mapSet acc kv.1 kv.2) m) := by
  intro pairs
  induction pairs with
  | nil => intro m; rfl
  | cons kv rest ih =>
    intro m
    simp only [List.map_cons, List.foldlM_cons, List.foldl_cons]
    have : entryPair (mkEntry kv) = .ok (kv.1, kv.2) := rfl
    rw [this]
    exact ih (mapSet m kv.1 kv.2)

/-! ## The claims -/

/-- C1: the spec claims `flat(d)` passes every non-iterable element through
unchanged at any depth (numbers yielded as-is, never an error), with
`flat(0)`/`flat(1)`/`flat(2)` on `[1, [2, [3, [4]]]]` yielding the
documented sequences.  The code agrees at depth 0 (the `depth === 0` test
precedes everything), but at any positive depth it feeds each item to
`isIterator`, whose `Symbol.iterator in item` throws a `TypeError` on the
primitive `1`, so `flat(1)` and `flat(2)` throw when consumed instead of
yielding `[1, 2, [3,[4]]]` and `[1, 2, 3, [4]]`.  The last conjunct shows
positive-depth flattening does work when no primitive is encountered,
pinning the failure on the primitive pass-through. -/
theorem flat_positive_depth_throws_on_primitive_element :
    rawFlat 0 nestedSource = .ok nestedSource ∧
    rawFlat 1 nestedSource = .error .primitiveIn ∧
    rawFlat 2 nestedSource = .error .primitiveIn ∧
    rawFlat 1 [.iterObj 0 [.num 1], .iterObj 1 [.num 2]] = .ok [.num 1, .num 2] :=
  ⟨rfl, rfl, rfl, rfl⟩

/-- C2: the spec claims `dedupe` keeps the first occurrence of each key and
consults `merge` on repeats (default merge keeping the first), so
`[{id:1,v:'a'}, {id:2,v:'b'}, {id:1,v:'c'}]` with `identify = x => x.id`
should yield `[{id:1,v:'a'}, {id:2,v:'b'}]`.  The code's condition
`if (existing ?? true)` evaluates to the *truthiness of the stored value*
when one is present, so a truthy stored value is overwritten by the new item
without `merge` ever being called: the run yields `[{id:1,v:'c'},
{id:2,v:'b'}]` instead. -/
theorem dedupe_replaces_truthy_stored_value :
    dedupe (getField "id") mergeDefault [itemA, itemB, itemC] = [itemC, itemB] ∧
    [itemC, itemB] ≠ [itemA, itemB] := by
  refine ⟨rfl, ?_⟩
  intro h
  have h1 : itemC = itemA := by injection h
  have h2 := congrArg (getField "v") h1
  simp [getField, itemA, itemC] at h2

/-- C3: the spec claims `findIndex(predicate)` returns `-1` when the source
is empty or no element matches.  The loop in the code ends without a
`return` statement in that case, so the call evaluates to `undefined`, not
`-1`; the matching case (index `2` for a match at source position 2) does
behave as documented. -/
theorem findIndex_returns_undefined_when_no_match :
    findIndex (fun _ _ => false) ([] : List Val) = .undefined ∧
    findIndex (fun _ _ => false) [.num 7, .num 8] = .undefined ∧
    Val.undefined ≠ Val.num (-1) ∧
    findIndex (fun v _ => strictEq v (.num 9)) [.num 7, .num 8, .num 9] = .num 2 :=
  ⟨rfl, rfl, fun h => Val.noConfusion h, rfl⟩

/-- C4: the spec claims `includes(v, fromIndex)` is true iff some element
strictly equal to `v` occurs at an index ≥ `fromIndex`, in particular for
falsy `v` such as `0`, `''`, `false`.  The code returns
`!!find(...)` — the truthiness of the *found element* — so a falsy element
that is present and strictly equal still yields `false`.  The last conjunct
shows the truthy case works, isolating the defect to falsy values. -/
theorem includes_false_for_present_falsy_value :
    includes (.num 0) 0 [.num 0] = false ∧
    includes (.str "") 0 [.str ""] = false ∧
    includes (.boolean false) 0 [.boolean false] = false ∧
    includes (.num 1) 0 [.num 0, .num 1] = true :=
  ⟨rfl, rfl, rfl, rfl⟩

/-- C5: chaining `map(f)` and then running the short-circuiting terminal
`find(p)` pulls mapped elements one at a time in source order, so when `p`
accepts the very first mapped element the map callback is invoked exactly
once — on the first source element with index 0 — no matter how long the
rest of the source is, and the result is that first mapped value.
(`findMapTrace` transcribes `find`'s pull loop over the suspended `rawMap`
generator; its second component is the invocation log of `f`.) -/
theorem map_then_find_invokes_callback_once (f : Val → Nat → Val)
    (p : Val → Nat → Bool) (x : Val) (xs : List Val)
    (h : p (f x 0) 0 = true) :
    findMapTrace f p 0 (x :: xs) = (f x 0, [(x, 0)]) := by
  simp [findMapTrace, h]

/-- C5 witness: a concrete run — identity map callback, predicate accepting
the first element, three-element source — makes exactly one callback
invocation. -/
theorem map_then_find_invokes_callback_once_witness :
    findMapTrace (fun v _ => v) (fun _ _ => true) 0 [Val.num 1, Val.num 2, Val.num 3]
      = (Val.num 1, [(Val.num 1, 0)]) :=
  map_then_find_invokes_callback_once (fun v _ => v) (fun _ _ => true)
    (Val.num 1) [Val.num 2, Val.num 3] rfl

/-- C6 counterexample: the claim's concrete example is internally
inconsistent with the code.  Over `[10, 20, 30, 40]` the keeping-evens
predicate keeps *all four* elements (each is even), not `20, 40`; and the
predicate invocation log shows `20` and `40` are passed source indices `1`
and `3` — index `0` goes to `10` and index `2` to `30` — so no run reports
indices `0, 2` for the kept elements `20, 40`. -/
theorem filter_even_example_cex :
    (rawFilterT keepEvens 0 filterSource).2 = [.num 10, .num 20, .num 30, .num 40] ∧
    (rawFilterT keepEvens 0 filterSource).1 =
      [(.num 10, 0), (.num 20, 1), (.num 30, 2), (.num 40, 3)] :=
  ⟨rfl, rfl⟩

/-- C6 amended: the general half of the claim holds — the index passed to
`filter`'s predicate counts positions over the source sequence, including
rejected elements (the invocation log is the source zipped with
`0, 1, 2, ...`).  Concretely, over `[10, 20, 30, 40]` a predicate keeping
exactly the multiples of 20 emits `[20, 40]`, and those two elements are
passed the source-relative indices `1` and `3` (not `0, 1` relative to the
filtered output, and not the claim's `0, 2`). -/
theorem filter_index_counts_source_positions :
    (∀ (lambda : Val → Nat → Bool) (l : List Val),
        (rawFilterT lambda 0 l).1 = l.zip (List.range' 0 l.length)) ∧
    (rawFilterT keepMul20 0 filterSource).2 = [.num 20, .num 40] ∧
    (rawFilterT keepMul20 0 filterSource).1 =
      [(.num 10, 0), (.num 20, 1), (.num 30, 2), (.num 40, 3)] :=
  ⟨fun lambda l => rawFilterT_calls lambda l 0, rfl, rfl⟩

/-- C7 counterexample: the claimed equivalence "construction raises
`InvalidArgument` iff the value lacks the iteration capability" fails in
both directions.  A primitive string exposes the iteration capability
(`for..of` yields its characters), yet construction throws — and with the
host's `in`-operator `TypeError`, not the explicit `InvalidArgument` one;
an object whose `Symbol.iterator` property is not callable cannot produce
elements, yet construction succeeds. -/
theorem construct_vs_capability_cex :
    (exposesIterationCapability (.str "ab") = true ∧
      Iterator.new (.str "ab") = .error .primitiveIn) ∧
    (exposesIterationCapability (.badIter 7) = false ∧
      Iterator.new (.badIter 7) = .ok ⟨.badIter 7⟩) :=
  ⟨⟨rfl, rfl⟩, ⟨rfl, rfl⟩⟩

/-- C7 amended: construction checks only that a `Symbol.iterator` property
is present on an *object* argument.  For objects: a present property
(callable or not) yields a `Wrapper` bound to the value with no element
consumed, an absent property raises the explicit `InvalidArgument` error.
For every primitive argument — numbers, `NaN`, strings (although iterable),
booleans, `null`, `undefined` — construction throws the host `TypeError`
raised by the `in` operator inside the capability check itself. -/
theorem construct_checks_property_presence :
    (∀ (oid : Nat) (l : List Val),
        Iterator.new (.iterObj oid l) = .ok ⟨.iterObj oid l⟩) ∧
    (∀ oid : Nat, Iterator.new (.badIter oid) = .ok ⟨.badIter oid⟩) ∧
    (∀ (oid : Nat) (fs : List (String × Val)),
        Iterator.new (.plainObj oid fs) = .error .invalidArgument) ∧
    (∀ s : String, Iterator.new (.str s) = .error .primitiveIn) ∧
    (∀ n : Int, Iterator.new (.num n) = .error .primitiveIn) ∧
    Iterator.new .nan = .error .primitiveIn ∧
    (∀ b : Bool, Iterator.new (.boolean b) = .error .primitiveIn) ∧
    Iterator.new .null = .error .primitiveIn ∧
    Iterator.new .undefined = .error .primitiveIn :=
  ⟨fun _ _ => rfl, fun _ => rfl, fun _ _ => rfl, fun _ => rfl, fun _ => rfl,
    rfl, fun _ => rfl, rfl, rfl⟩

/-- C8: sinking an ordered sequence of 2-element key/value entry arrays
through `intoMap` yields a mapping whose own iteration reproduces the
pairs: in general, any pair list with pairwise-distinct keys round-trips
unchanged; concretely `[['a',1], ['b',2]]` reproduces exactly, a duplicated
key `'a'` keeps its first position with the last value winning, and
`intoObject` on `[['a',1], ['b',2]]` yields the record `{a: 1, b: 2}` with
string keys. -/
theorem intoMap_intoObject_round_trip :
    (∀ pairs : List (Val × Val), distinctKeys pairs = true →
        intoMap (List.map mkEntry pairs) = .ok pairs) ∧
    intoMap [entryA1, entryB2] = .ok [(.str "a", .num 1), (.str "b", .num 2)] ∧
    intoMap [entryA1, entryB2, entryA3] = .ok [(.str "a", .num 3), (.str "b", .num 2)] ∧
    intoObject [entryA1, entryB2] = .ok [("a", .num 1), ("b", .num 2)] := by
  refine ⟨?_, rfl, rfl, rfl⟩
  intro pairs h
  unfold intoMap
  rw [intoMap_mkEntry_foldl]
  rw [foldl_mapSet_of_distinct pairs [] h (fun kv _ => rfl)]
  rfl

/-- C8 witness: the concrete pair list `[('a', 1), ('b', 2)]` has distinct
keys and round-trips through `intoMap` unchanged. -/
theorem intoMap_intoObject_round_trip_witness :
    intoMap (List.map mkEntry [((Val.str "a"), Val.num 1), ((Val.str "b"), Val.num 2)])
      = .ok [((Val.str "a"), Val.num 1), ((Val.str "b"), Val.num 2)] :=
  intoMap_intoObject_round_trip.1
    [((Val.str "a"), Val.num 1), ((Val.str "b"), Val.num 2)] rfl

/-- C9: construction checks only that a `Symbol.iterator` property is
present, not that it is callable — for every object whose `Symbol.iterator`
property holds a non-function value, `Iterator.new` succeeds and returns a
`Wrapper` bound to it, and the `TypeError` surfaces only when the wrapper
is consumed (its delegation `this.ref[Symbol.iterator].bind(this.ref)`
cannot bind a non-function). -/
theorem noncallable_iterator_accepted_until_consumed (oid : Nat) :
    Iterator.new (.badIter oid) = .ok ⟨.badIter oid⟩ ∧
    Wrapper.consume ⟨.badIter oid⟩ = .error .notAFunction :=
  ⟨rfl, rfl⟩

/-- C10: because `includes` matches elements with strict equality and
`NaN === NaN` is false, `includes(NaN, fromIndex)` returns `false` for
every source sequence and every `fromIndex`, even when `NaN` occurs at or
after `fromIndex`. -/
theorem includes_nan_always_false (l : List Val) (fromIndex : Nat) :
    includes .nan fromIndex l = false := by
  unfold includes find
  rw [findFrom_of_callback_false _ (fun x i => by simp [strictEq_nan_right])]
  rfl
